import Mathlib

/-!
Verification of the homework-status bot (`homework.py`, `exceptions.py`).

The development shallowly embeds the program: JSON/Python values become the
inductive `JVal`, Python exceptions become the inductive `PyExc`, fallible
functions return `Except PyExc _`, and the body of the infinite polling loop
in `main` becomes the state-transition function `runIteration` over the
state `BotState` (the `timestamp` cursor and the `prev_msg` dedup cache).
External effects of one iteration (the HTTP response, the wall clock, the
Telegram send outcome) are supplied through the environment record `Env`.
Logger calls that only emit diagnostics inside the helper functions are not
tracked; the log lines produced directly by the loop body and by
`send_message` are, since the specification refers to them.
-/

/-- Python/JSON values as far as this program inspects them: the decoded API
response, homework records, and the values stored under their keys.
Dictionaries are association lists with the first binding of a key the
visible one (JSON objects have unique keys). -/
inductive JVal where
  | null
  | bool (b : Bool)
  | int (n : Int)
  | str (s : String)
  | list (xs : List JVal)
  | dict (fields : List (String × JVal))

mutual

/-- Python `repr` of a `JVal`, used when values are interpolated into error
messages. String quoting is the simple single-quote form; escaping of quotes
and backslashes inside the string is not modelled (no message the claims
mention contains them). -/
def jRepr : JVal → String
  | .null => "None"
  | .bool true => "True"
  | .bool false => "False"
  | .int n => toString n
  | .str s => "\x27" ++ s ++ "\x27"
  | .list xs => "[" ++ jReprElems xs ++ "]"
  | .dict fs => "\x7b" ++ jReprFields fs ++ "\x7d"

/-- Comma-separated reprs of the elements of a Python list. -/
def jReprElems : List JVal → String
  | [] => ""
  | [x] => jRepr x
  | x :: y :: xs => jRepr x ++ ", " ++ jReprElems (y :: xs)

/-- Comma-separated `key: value` reprs of the items of a Python dict. -/
def jReprFields : List (String × JVal) → String
  | [] => ""
  | [(k, v)] => "\x27" ++ k ++ "\x27: " ++ jRepr v
  | (k, v) :: f :: fs =>
      "\x27" ++ k ++ "\x27: " ++ jRepr v ++ ", " ++ jReprFields (f :: fs)

end

/-- Python `str` of a `JVal`: strings render as themselves, everything else
as its repr (this matches CPython for None, bools, ints, lists and dicts). -/
def jStr : JVal → String
  | .str s => s
  | v => jRepr v

/-- Python `str(type(v))`, interpolated by `check_response` error messages. -/
def pyTypeName : JVal → String
  | .null => "<class \x27NoneType\x27>"
  | .bool _ => "<class \x27bool\x27>"
  | .int _ => "<class \x27int\x27>"
  | .str _ => "<class \x27str\x27>"
  | .list _ => "<class \x27list\x27>"
  | .dict _ => "<class \x27dict\x27>"

/-- Bare Python type name of a `JVal`, as it appears in `AttributeError`
messages such as: 'list' object has no attribute 'get'. -/
def typeShort : JVal → String
  | .null => "NoneType"
  | .bool _ => "bool"
  | .int _ => "int"
  | .str _ => "str"
  | .list _ => "list"
  | .dict _ => "dict"

/-- Python truthiness of a `JVal`. -/
def jTruthy : JVal → Bool
  | .null => false
  | .bool b => b
  | .int n => n != 0
  | .str s => s != ""
  | .list xs => !xs.isEmpty
  | .dict fs => !fs.isEmpty

/-- Python exceptions the embedded program can raise or observe.
`wrongResponseCode1` is `WrongResponseCode` constructed with one argument
(line 70 of homework.py), `wrongResponseCode2` with two (line 80, where the
second argument is the exception caught by the enclosing handler).
`otherError` stands for any further exception type an external call might
raise (carrying its class name and message). -/
inductive PyExc where
  | keyError (msg : String)
  | typeError (msg : String)
  | attributeError (msg : String)
  | wrongResponseCode1 (msg : String)
  | wrongResponseCode2 (msg : String) (inner : PyExc)
  | notForSend (msg : String)
  | unknownStatusError (msg : String)
  | telegramError (msg : String)
  | otherError (clsName : String) (msg : String)

/-- Whether `except NotForSend` (line 197) catches this exception. -/
def isNotForSend : PyExc → Bool
  | .notForSend _ => true
  | _ => false

/-- Whether `except telegram.TelegramError` (line 162) catches this
exception. -/
def isTelegramError : PyExc → Bool
  | .telegramError _ => true
  | _ => false

/-- Python `repr` of a string, simple single-quote form. -/
def strRepr (s : String) : String := "\x27" ++ s ++ "\x27"

/-- Python `repr` of an exception: class name applied to the repr of its
arguments. -/
def pyRepr : PyExc → String
  | .keyError m => "KeyError(" ++ strRepr m ++ ")"
  | .typeError m => "TypeError(" ++ strRepr m ++ ")"
  | .attributeError m => "AttributeError(" ++ strRepr m ++ ")"
  | .wrongResponseCode1 m => "WrongResponseCode(" ++ strRepr m ++ ")"
  | .wrongResponseCode2 m e =>
      "WrongResponseCode(" ++ strRepr m ++ ", " ++ pyRepr e ++ ")"
  | .notForSend m => "NotForSend(" ++ strRepr m ++ ")"
  | .unknownStatusError m => "UnknownStatusError(" ++ strRepr m ++ ")"
  | .telegramError m => "TelegramError(" ++ strRepr m ++ ")"
  | .otherError c m => c ++ "(" ++ strRepr m ++ ")"

/-- Python `str` of an exception, what `f"... \x7berror\x7d"` interpolates:
for a single-argument exception its message, except that `KeyError.__str__`
returns the repr of the key; for the two-argument `WrongResponseCode` the
repr of its argument tuple; `UnknownStatusError.__str__` is overridden in
exceptions.py to prefix its class name. -/
def excText : PyExc → String
  | .keyError m => strRepr m
  | .typeError m => m
  | .attributeError m => m
  | .wrongResponseCode1 m => m
  | .wrongResponseCode2 m e => "(" ++ strRepr m ++ ", " ++ pyRepr e ++ ")"
  | .notForSend m => m
  | .unknownStatusError m => "UnknownStatusError --> " ++ m
  | .telegramError m => m
  | .otherError _ m => m

/-- Environment-derived configuration (lines 14-16 of homework.py):
`os.getenv` yields `none` when the variable is unset. -/
structure Config where
  practicum_token : Option String
  telegram_token : Option String
  telegram_chat_id : Option String

/-- Python truthiness of an `os.getenv` result: `None` and the empty string
are falsy. -/
def optTruthy : Option String → Bool
  | none => false
  | some s => s != ""

/-- Embeds `check_tokens` (lines 50-53): `all` over the truthiness of the
three configuration values. -/
def check_tokens (cfg : Config) : Bool :=
  optTruthy cfg.practicum_token && optTruthy cfg.telegram_token &&
    optTruthy cfg.telegram_chat_id

/-- Outcome of the startup guard of `main` (lines 169-172): either the
process logs the critical message and calls `sys.exit` with the message
string (which terminates with failure status 1), or it proceeds into the
polling loop. -/
inductive StartupOutcome where
  | exitFailure (criticalLog : String) (exitArg : String)
  | enterLoop

/-- Embeds the startup guard of `main` (lines 169-172). -/
def mainStartup (cfg : Config) : StartupOutcome :=
  if check_tokens cfg then .enterLoop
  else .exitFailure "Отсутствует токен. Бот остановлен!"
         "Отсутствует токен. Бот остановлен!"

/-- Embeds `HOMEWORK_VERDICTS` (lines 23-27). -/
def HOMEWORK_VERDICTS : List (String × String) :=
  [("approved", "Работа проверена: ревьюеру всё понравилось. Ура!"),
   ("reviewing", "Работа взята на проверку ревьюером."),
   ("rejected", "Работа проверена: у ревьюера есть замечания.")]

/-- Embeds `HOMEWORK_VERDICTS.get(x)` (line 131) where `x` is the result of
`homework.get("status")`: unhashable arguments raise `TypeError`, a string
key is looked up, any other hashable value (including `None` for an absent
key) is simply not found. -/
def verdictsGet : Option JVal → Except PyExc (Option String)
  | some (.list _) => .error (.typeError "unhashable type: \x27list\x27")
  | some (.dict _) => .error (.typeError "unhashable type: \x27dict\x27")
  | some (.str s) => .ok (List.lookup s HOMEWORK_VERDICTS)
  | _ => .ok none

/-- Embeds `homework_status not in HOMEWORK_VERDICTS` (negated; line 132).
Only a string equal to one of the three keys is a member. Unhashable values
never reach this test: line 131 raises first. -/
def statusInVerdicts : Option JVal → Bool
  | some (.str s) => (List.lookup s HOMEWORK_VERDICTS).isSome
  | _ => false

/-- Python `str` of the value of an optional key (`None` when absent). -/
def optJStr : Option JVal → String
  | none => "None"
  | some v => jStr v

/-- Python truthiness of `verdict` at line 138: `None` and the empty string
are falsy. -/
def optStrFalsy : Option String → Bool
  | none => true
  | some s => s == ""

/-- Embeds `parse_status` (lines 127-153). A non-dict argument makes the
first `.get` call raise `AttributeError`; the `homework is None` test at
line 143 is unreachable for the same reason and has no branch here. -/
def parse_status (homework : JVal) : Except PyExc String :=
  match homework with
  | JVal.dict fs =>
    let homework_name := List.lookup "homework_name" fs
    let homework_status := List.lookup "status" fs
    match verdictsGet homework_status with
    | .error e => .error e
    | .ok verdict =>
      if !statusInVerdicts homework_status then
        .error (.keyError "Такого статуса не существует")
      else if homework_name.isNone then
        .error (.keyError "Такого имени не существует")
      else if optStrFalsy verdict then
        .error (.keyError ("Отсутствует документированный статус" ++
          "проверки работы \"" ++ optJStr homework_name ++ "\""))
      else
        .ok ("Изменился статус проверки работы \"" ++
          optJStr homework_name ++ "\". " ++
          (match homework_status with
           | some (JVal.str s) => (List.lookup s HOMEWORK_VERDICTS).getD ""
           | _ => ""))
  | v =>
    .error (.attributeError
      ("\x27" ++ typeShort v ++ "\x27 object has no attribute \x27get\x27"))

/-- Embeds `check_response` (lines 83-124): type check on the response,
presence of `homeworks`, presence of `current_date`, type check on the
`homeworks` value, then `response.get("homeworks")` is returned. The
interleaved logger calls are diagnostics only and are not tracked. -/
def check_response (response : JVal) : Except PyExc (List JVal) :=
  match response with
  | JVal.dict fs =>
    match List.lookup "homeworks" fs with
    | none =>
      .error (.keyError
        ("Ответ сервера не содержит ключ \"homeworks\": " ++ jStr response))
    | some hwv =>
      match List.lookup "current_date" fs with
      | none =>
        .error (.keyError
          ("Ответ сервера не содержит текущую дату (ключ \"current_date\"): "
            ++ jStr response))
      | some _ =>
        match hwv with
        | JVal.list hws => .ok hws
        | _ =>
          .error (.typeError
            ("Неправильный тип данных ответа сервера с ключом \"homeworks\":"
              ++ pyTypeName hwv))
  | _ =>
    .error (.typeError
      ("Неправильный тип данных ответа сервера: " ++ pyTypeName response))

/-- The HTTP endpoint constant (line 19). -/
def ENDPOINT : String :=
  "https://practicum.yandex.ru/api/user_api/homework_statuses/"

/-- The flat sleep interval between iterations, in seconds (line 18). -/
def RETRY_PERIOD : Nat := 600

/-- The `http.HTTPStatus.OK` code `get_api_answer` compares against. -/
def httpStatusOK : Nat := 200

/-- Result of a completed `requests.get` call: status line pieces, raw body
text, and the outcome of decoding the body as JSON (`response.json()` can
itself raise). -/
structure HttpResponse where
  status_code : Nat
  reason : String
  text : String
  json : Except PyExc JVal

/-- Python `str` of the `HEADERS` dict (line 20), whose value interpolates
the possibly missing token. -/
def headersStr (practicum_token : Option String) : String :=
  "\x7b\x27Authorization\x27: \x27OAuth " ++
    (match practicum_token with
     | none => "None"
     | some t => t) ++ "\x27\x7d"

/-- Python `str` of the `params` dict `\x7b"from_date": timestamp\x7d`
(line 62). -/
def paramsStr (from_date : JVal) : String :=
  "\x7b\x27from_date\x27: " ++ jRepr from_date ++ "\x7d"

/-- The message built at lines 78-79 and passed to the re-raised
`WrongResponseCode`; it interpolates the url, headers and params of the
request. -/
def apiFailText (cfg : Config) (from_date : JVal) : String :=
  "API не возвращает 200. Запрос: " ++ ENDPOINT ++ ", " ++
    headersStr cfg.practicum_token ++ ", " ++ paramsStr from_date ++ "."

/-- The message of the `WrongResponseCode` raised at lines 70-75 for a
non-200 status: it interpolates the status code, reason phrase and body
text. -/
def badStatusText (resp : HttpResponse) : String :=
  "Ответ API не возвращает 200. Код ответа: " ++ toString resp.status_code ++
    ". Причина: " ++ resp.reason ++ ". Текст: " ++ resp.text ++ "."

/-- Embeds `get_api_answer` (lines 56-80). `apiResult` is the outcome of the
`requests.get` call itself (`.error` when the call raises). Within the
`try`, a non-200 status raises `WrongResponseCode`; the `except Exception`
then catches every exception from the block and re-raises a two-argument
`WrongResponseCode` whose first argument is the request description and
whose second is the caught exception. `timestamp or int(time.time())`
(line 58) chooses the `from_date` parameter. -/
def get_api_answer (cfg : Config) (apiResult : Except PyExc HttpResponse)
    (timestamp : JVal) (now : Int) : Except PyExc JVal :=
  let from_date := if jTruthy timestamp then timestamp else JVal.int now
  match apiResult with
  | .error e => .error (.wrongResponseCode2 (apiFailText cfg from_date) e)
  | .ok resp =>
    if resp.status_code != httpStatusOK then
      .error (.wrongResponseCode2 (apiFailText cfg from_date)
        (.wrongResponseCode1 (badStatusText resp)))
    else
      match resp.json with
      | .error e => .error (.wrongResponseCode2 (apiFailText cfg from_date) e)
      | .ok j => .ok j

/-- Embeds `response.get("current_date", int(time.time()))` (lines 183-185):
on a dict, the value under the key when present (whatever it is, falsy
included), otherwise the wall-clock default; on a non-dict the attribute
access raises. -/
def dictGetDefault (response : JVal) (key : String) (dflt : JVal) :
    Except PyExc JVal :=
  match response with
  | JVal.dict fs => .ok ((List.lookup key fs).getD dflt)
  | v =>
    .error (.attributeError
      ("\x27" ++ typeShort v ++ "\x27 object has no attribute \x27get\x27"))

/-- Severity of a tracked log line. -/
inductive LogLevel where
  | debug
  | info
  | error
  | critical
deriving DecidableEq

/-- A tracked log line: severity and message. -/
def LogEntry : Type := LogLevel × String

/-- Embeds `send_message` (lines 156-164). `sendRaise` is the behaviour of
`bot.send_message`: `none` when it returns normally, `some e` when it raises
`e`. A raised `telegram.TelegramError` is caught and logged; the function
then returns normally. Any other exception would propagate. -/
def send_message (sendRaise : Option PyExc) (message : String) :
    Except PyExc (List LogEntry) :=
  match sendRaise with
  | none => .ok [(.debug, "Сообщение в Telegram отправлено: " ++ message)]
  | some e =>
    if isTelegramError e then
      .ok [(.error, "Сообщение в Telegram не отправлено: " ++ excText e)]
    else
      .error e

/-- Log lines of a `send_message` call whose `bot.send_message` either
succeeds or raises `telegram.TelegramError` with the given text -- the two
behaviours the Telegram client exhibits at its boundary. -/
def sendViaBot (outcome : Option String) (message : String) : List LogEntry :=
  match outcome with
  | none => [(.debug, "Сообщение в Telegram отправлено: " ++ message)]
  | some terr => [(.error, "Сообщение в Telegram не отправлено: " ++ terr)]

/-- The local mutable state of `main`'s loop: the `timestamp` cursor and the
`prev_msg` dedup cache. `timestamp` is a `JVal` because line 183 assigns it
whatever value the response stores under `current_date`. -/
structure BotState where
  timestamp : JVal
  prev_msg : String

/-- External events of one loop iteration: the outcome of the `requests.get`
call, the wall clock (`int(time.time())`), and the Telegram client behaviour
(`none` = delivered, `some t` = raises `telegram.TelegramError` with text
`t`). -/
structure Env where
  apiResult : Except PyExc HttpResponse
  now : Int
  sendOutcome : Option String

/-- The fixed sentinel message for an empty homeworks list (line 190). -/
def noNewStatuses : String := "Нет новых статусов"

/-- Embeds lines 182-190 of the `try` block: API call, cursor assignment,
response validation, message derivation. Returns the state as mutated so far
together with either the derived message or the exception that escaped the
block; note the cursor assignment at line 183 precedes validation, so the
state it produced survives a later exception. -/
def pipeline (cfg : Config) (env : Env) (st : BotState) :
    BotState × Except PyExc String :=
  match get_api_answer cfg env.apiResult st.timestamp env.now with
  | .error e => (st, .error e)
  | .ok response =>
    match dictGetDefault response "current_date" (JVal.int env.now) with
    | .error e => (st, .error e)
    | .ok ts =>
      match check_response response with
      | .error e => ({ st with timestamp := ts }, .error e)
      | .ok homeworks =>
        match homeworks with
        | [] => ({ st with timestamp := ts }, .ok noNewStatuses)
        | hw :: _ =>
          match parse_status hw with
          | .error e => ({ st with timestamp := ts }, .error e)
          | .ok m => ({ st with timestamp := ts }, .ok m)

/-- Result of the `try` block (lines 181-195): mutated state, messages for
which `bot.send_message` was invoked, tracked log lines, and the exception
that escaped the block, if any. -/
structure TryResult where
  state : BotState
  sent : List String
  logs : List LogEntry
  exc : Option PyExc

/-- Embeds the whole `try` block (lines 181-195): derive the message, then
deduplicate -- send and record when it differs from `prev_msg`, log at info
level when it does not. -/
def tryBlock (cfg : Config) (env : Env) (st : BotState) : TryResult :=
  match pipeline cfg env st with
  | (st1, .error e) => { state := st1, sent := [], logs := [], exc := some e }
  | (st1, .ok message) =>
    if message = st1.prev_msg then
      { state := st1, sent := [], logs := [(.info, message)], exc := none }
    else
      { state := { st1 with prev_msg := message }, sent := [message],
        logs := sendViaBot env.sendOutcome message, exc := none }

/-- Result of one full loop iteration: new state, invoked sends, tracked
logs. The function is total: every exception the `try` block raises is
handled by the `except` clauses, so an iteration always produces a next
state. -/
structure IterOut where
  state : BotState
  sent : List String
  logs : List LogEntry

/-- Embeds the two `except` clauses (lines 197-206) applied to the exception
`e` that escaped the `try` block, starting from the state the block left
behind. `except NotForSend` only logs; `except Exception` logs and then
applies the same dedup rule as the success path before notifying. -/
def handleExc (env : Env) (e : PyExc) (st : BotState) : IterOut :=
  if isNotForSend e then
    { state := st, sent := [],
      logs := [(.error, "Сбой в работе программы: " ++ excText e)] }
  else
    let message := "Сбой в работе программы: " ++ excText e
    if message = st.prev_msg then
      { state := st, sent := [], logs := [(.error, message)] }
    else
      { state := { st with prev_msg := message }, sent := [message],
        logs := (LogLevel.error, message) :: sendViaBot env.sendOutcome message }

/-- Embeds one iteration of `while True` (lines 180-209): run the `try`
block, and on an escaped exception run the `except` clauses. The `finally:
time.sleep(RETRY_PERIOD)` has no effect on the state and is not tracked. -/
def runIteration (cfg : Config) (env : Env) (st : BotState) : IterOut :=
  let t := tryBlock cfg env st
  match t.exc with
  | none => { state := t.state, sent := t.sent, logs := t.logs }
  | some e =>
    let h := handleExc env e t.state
    { state := h.state, sent := t.sent ++ h.sent, logs := t.logs ++ h.logs }

/-- Runs the loop body once per environment in the list, threading the
state; returns the final state and every message for which the notifier was
invoked, in order. Each iteration is total, so the loop always reaches the
remaining iterations whatever a single iteration raised. -/
def runLoop (cfg : Config) : List Env → BotState → BotState × List String
  | [], st => (st, [])
  | env :: rest, st =>
    let o := runIteration cfg env st
    let r := runLoop cfg rest o.state
    (r.1, o.sent ++ r.2)

/-- The single message string one iteration derives: the parsed status or
the sentinel on the success path, the formatted failure text
(line 198 / line 202) when the `try` block raised. -/
def derivedMessage (cfg : Config) (env : Env) (st : BotState) : String :=
  match (pipeline cfg env st).2 with
  | .ok m => m
  | .error e => "Сбой в работе программы: " ++ excText e

/-- Cursor update rule as the specification's claim C6, amended, describes
it (written from the spec's words, to be compared with `runIteration`): the
cursor becomes the response's `current_date` value exactly when the API call
returned HTTP 200 with a decodable JSON mapping and the key is present (even
with a falsy value); it becomes the wall clock when such a mapping lacks the
key; in every other case -- transport failure, non-200 status, undecodable
or non-mapping JSON -- it is unchanged. Validation of the mapping plays no
role. -/
def nextCursorSpec (env : Env) (st : BotState) : JVal :=
  match env.apiResult with
  | .error _ => st.timestamp
  | .ok resp =>
    if resp.status_code = httpStatusOK then
      match resp.json with
      | .ok (JVal.dict fs) =>
        match List.lookup "current_date" fs with
        | some v => v
        | none => JVal.int env.now
      | _ => st.timestamp
    else st.timestamp

/-- Shape-failure condition of claim C4, written from the spec's words (to
be compared with `check_response`): the response is not a mapping, or lacks
`homeworks`, or lacks `current_date`, or its `homeworks` value is not a
sequence. -/
def specShapeBad (response : JVal) : Bool :=
  match response with
  | JVal.dict fs =>
    (List.lookup "homeworks" fs).isNone ||
      (List.lookup "current_date" fs).isNone ||
      (match List.lookup "homeworks" fs with
       | some (JVal.list _) => false
       | _ => true)
  | _ => true

/-- Containment of one string in another, used to state that an error text
or a derived message carries a required piece of information. -/
def strIncludes (hay needle : String) : Prop :=
  ∃ a b : String, hay = a ++ needle ++ b

/-- Sample configuration with all three tokens set and non-empty. -/
def cfgSample : Config := ⟨some "ptok", some "ttok", some "chat"⟩

/-- Sample loop state: integer cursor, empty dedup cache (as after line
178). -/
def stSample : BotState := ⟨JVal.int 1, ""⟩

/-- Sample successful HTTP response carrying an empty homeworks list. -/
def respEmptyOK : HttpResponse :=
  ⟨200, "OK", "",
   .ok (JVal.dict [("homeworks", JVal.list []), ("current_date", JVal.int 5)])⟩

/-- Environment: successful empty-list response, delivery succeeds. -/
def envOK : Env := ⟨.ok respEmptyOK, 0, none⟩

/-- Environment: successful empty-list response, Telegram delivery raises. -/
def envSendFail : Env := ⟨.ok respEmptyOK, 0, some "boom"⟩

/-- Sample HTTP response whose JSON decodes to a list instead of a dict. -/
def respListJson : HttpResponse := ⟨200, "OK", "", .ok (JVal.list [])⟩

/-- Environment: well-transported response with non-mapping JSON. -/
def envBadJson : Env := ⟨.ok respListJson, 0, none⟩

/-- Sample HTTP 503 response. -/
def resp503 : HttpResponse :=
  ⟨503, "Service Unavailable", "busy", .ok JVal.null⟩

/-- Environment exercising claim C6: the response is a mapping with a falsy
`current_date` of 0 and no `homeworks` key, observed at wall-clock 50. -/
def envC6 : Env :=
  ⟨.ok ⟨200, "OK", "", .ok (JVal.dict [("current_date", JVal.int 0)])⟩,
   50, none⟩

/-- Configuration whose first token is set but empty. -/
def cfgEmptyTok : Config := ⟨some "", some "x", some "y"⟩

/-- Configuration whose first token is unset. -/
def cfgNoTok : Config := ⟨none, some "x", some "y"⟩

theorem strIncludes_mid (a n b : String) : strIncludes (a ++ n ++ b) n :=
  ⟨a, b, rfl⟩

theorem strIncludes_self (n : String) : strIncludes n n :=
  ⟨"", "", by rw [String.empty_append, String.append_empty]⟩

theorem strIncludes_mono_left (a b n : String) (h : strIncludes a n) :
    strIncludes (a ++ b) n := by
  obtain ⟨x, y, rfl⟩ := h
  exact ⟨x, y ++ b, by rw [String.append_assoc (x ++ n) y b]⟩

theorem strIncludes_mono_right (a b n : String) (h : strIncludes b n) :
    strIncludes (a ++ b) n := by
  obtain ⟨x, y, rfl⟩ := h
  exact ⟨a ++ x, y, by simp [String.append_assoc]⟩

theorem strIncludes_strRepr (m n : String) (h : strIncludes m n) :
    strIncludes (strRepr m) n :=
  strIncludes_mono_left _ _ _ (strIncludes_mono_right _ _ _ h)

theorem pipeline_prev (cfg : Config) (env : Env) (st : BotState) :
    (pipeline cfg env st).1.prev_msg = st.prev_msg := by
  unfold pipeline
  repeat' split
  all_goals rfl

theorem get_api_answer_not_nfs (cfg : Config) (r : Except PyExc HttpResponse)
    (ts : JVal) (now : Int) (e : PyExc)
    (h : get_api_answer cfg r ts now = Except.error e) :
    isNotForSend e = false := by
  unfold get_api_answer at h
  repeat' split at h
  all_goals first
    | (injection h with h2; subst h2; rfl)
    | (subst h; rfl)
    | (injection h)

theorem dictGetDefault_not_nfs (response : JVal) (key : String) (dflt : JVal)
    (e : PyExc) (h : dictGetDefault response key dflt = Except.error e) :
    isNotForSend e = false := by
  unfold dictGetDefault at h
  repeat' split at h
  all_goals first
    | (injection h with h2; subst h2; rfl)
    | (subst h; rfl)
    | (injection h)

theorem check_response_not_nfs (response : JVal) (e : PyExc)
    (h : check_response response = Except.error e) :
    isNotForSend e = false := by
  unfold check_response at h
  repeat' split at h
  all_goals first
    | (injection h with h2; subst h2; rfl)
    | (subst h; rfl)
    | (injection h)

theorem verdictsGet_not_nfs (v : Option JVal) (e : PyExc)
    (h : verdictsGet v = Except.error e) : isNotForSend e = false := by
  unfold verdictsGet at h
  repeat' split at h
  all_goals first
    | (injection h with h2; subst h2; rfl)
    | (subst h; rfl)
    | (injection h)

theorem parse_status_not_nfs (hw : JVal) (e : PyExc)
    (h : parse_status hw = Except.error e) : isNotForSend e = false := by
  cases hw
  case dict fs =>
    simp only [parse_status] at h
    cases hv : verdictsGet (List.lookup "status" fs) with
    | error e1 =>
      simp only [hv] at h
      injection h with h2
      subst h2
      exact verdictsGet_not_nfs _ _ hv
    | ok verdict =>
      simp only [hv] at h
      repeat' split at h
      all_goals first
        | (injection h with h2; subst h2; rfl)
        | (subst h; rfl)
        | (injection h)
        | simp_all
  all_goals simp only [parse_status] at h
  all_goals injection h with h2
  all_goals subst h2
  all_goals rfl

theorem pipeline_not_nfs (cfg : Config) (env : Env) (st : BotState) (e : PyExc)
    (h : (pipeline cfg env st).2 = Except.error e) : isNotForSend e = false := by
  unfold pipeline at h
  split at h
  · rename_i e1 heq
    obtain rfl : e1 = e := by simpa using h
    exact get_api_answer_not_nfs _ _ _ _ _ heq
  · rename_i response heq
    split at h
    · rename_i e1 heq1
      obtain rfl : e1 = e := by simpa using h
      exact dictGetDefault_not_nfs _ _ _ _ heq1
    · rename_i ts heq1
      split at h
      · rename_i e1 heq2
        obtain rfl : e1 = e := by simpa using h
        exact check_response_not_nfs _ _ heq2
      · rename_i homeworks heq2
        split at h
        · simp at h
        · rename_i hw tail
          split at h
          · rename_i e1 heq3
            obtain rfl : e1 = e := by simpa using h
            exact parse_status_not_nfs _ _ heq3
          · simp at h

theorem runIteration_prev (cfg : Config) (env : Env) (st : BotState) :
    (runIteration cfg env st).state.prev_msg = derivedMessage cfg env st := by
  unfold runIteration tryBlock derivedMessage
  cases hp : pipeline cfg env st with
  | mk st1 r =>
    cases r with
    | ok m => by_cases hm : m = st1.prev_msg <;> simp [hm]
    | error e =>
      have hnfs : isNotForSend e = false :=
        pipeline_not_nfs cfg env st e (by rw [hp])
      by_cases hm : ("Сбой в работе программы: " ++ excText e) = st1.prev_msg <;>
        simp [handleExc, hnfs, hm]

theorem runIteration_sent (cfg : Config) (env : Env) (st : BotState) :
    (runIteration cfg env st).sent =
      if derivedMessage cfg env st = st.prev_msg then []
      else [derivedMessage cfg env st] := by
  have hprev := pipeline_prev cfg env st
  unfold runIteration tryBlock derivedMessage
  cases hp : pipeline cfg env st with
  | mk st1 r =>
    rw [hp] at hprev
    have hprev2 : st1.prev_msg = st.prev_msg := hprev
    cases r with
    | ok m => by_cases hm : m = st.prev_msg <;> simp [hm, hprev2]
    | error e =>
      have hnfs : isNotForSend e = false :=
        pipeline_not_nfs cfg env st e (by rw [hp])
      by_cases hm : ("Сбой в работе программы: " ++ excText e) = st.prev_msg <;>
        simp [handleExc, hnfs, hm, hprev2]

theorem runIteration_logged_dup (cfg : Config) (env : Env) (st : BotState)
    (h : derivedMessage cfg env st = st.prev_msg) :
    ∃ lvl, (lvl, derivedMessage cfg env st) ∈ (runIteration cfg env st).logs := by
  have hprev := pipeline_prev cfg env st
  unfold runIteration tryBlock
  unfold derivedMessage at h ⊢
  cases hp : pipeline cfg env st with
  | mk st1 r =>
    rw [hp] at hprev h
    have hprev2 : st1.prev_msg = st.prev_msg := hprev
    cases r with
    | ok m =>
      simp only [] at h
      exact ⟨.info, by simp [h, hprev2]⟩
    | error e =>
      have hnfs : isNotForSend e = false :=
        pipeline_not_nfs cfg env st e (by rw [hp])
      simp only [] at h
      exact ⟨.error, by simp [handleExc, hnfs, h, hprev2]⟩

theorem runIteration_error_logged (cfg : Config) (env : Env) (st : BotState)
    (e : PyExc) (h : (pipeline cfg env st).2 = Except.error e) :
    (LogLevel.error, "Сбой в работе программы: " ++ excText e) ∈
      (runIteration cfg env st).logs := by
  have hnfs : isNotForSend e = false := pipeline_not_nfs cfg env st e h
  unfold runIteration tryBlock
  cases hp : pipeline cfg env st with
  | mk st1 r =>
    rw [hp] at h
    cases r with
    | ok m => simp at h
    | error e1 =>
      have h2 : e1 = e := by simpa using h
      subst h2
      by_cases hm : ("Сбой в работе программы: " ++ excText e1) = st1.prev_msg <;>
        simp [handleExc, hnfs, hm]

theorem pipeline_timestamp (cfg : Config) (env : Env) (st : BotState) :
    (pipeline cfg env st).1.timestamp = nextCursorSpec env st := by
  unfold pipeline nextCursorSpec
  cases henv : env.apiResult with
  | error e => simp [get_api_answer, henv]
  | ok resp =>
    by_cases hsc : resp.status_code = httpStatusOK
    · cases hj : resp.json with
      | error e => simp [get_api_answer, henv, hsc, hj]
      | ok j =>
        cases j with
        | dict fs =>
          cases hl : List.lookup "current_date" fs with
          | none =>
            simp only [get_api_answer, henv, hsc, hj, dictGetDefault, hl,
              bne_self_eq_false, Bool.false_eq_true, if_false, if_pos,
              Option.getD]
            repeat' split
            all_goals simp_all
          | some v =>
            simp only [get_api_answer, henv, hsc, hj, dictGetDefault, hl,
              bne_self_eq_false, Bool.false_eq_true, if_false, if_pos,
              Option.getD]
            repeat' split
            all_goals simp_all
        | null => simp [get_api_answer, dictGetDefault, henv, hsc, hj]
        | bool b => simp [get_api_answer, dictGetDefault, henv, hsc, hj]
        | int n => simp [get_api_answer, dictGetDefault, henv, hsc, hj]
        | str s => simp [get_api_answer, dictGetDefault, henv, hsc, hj]
        | list xs => simp [get_api_answer, dictGetDefault, henv, hsc, hj]
    · simp [get_api_answer, henv, hsc, bne_iff_ne]

theorem runIteration_timestamp (cfg : Config) (env : Env) (st : BotState) :
    (runIteration cfg env st).state.timestamp = (pipeline cfg env st).1.timestamp := by
  unfold runIteration tryBlock
  cases hp : pipeline cfg env st with
  | mk st1 r =>
    cases r with
    | ok m => by_cases hm : m = st1.prev_msg <;> simp [hm]
    | error e =>
      have hnfs : isNotForSend e = false :=
        pipeline_not_nfs cfg env st e (by rw [hp])
      by_cases hm : ("Сбой в работе программы: " ++ excText e) = st1.prev_msg <;>
        simp [handleExc, hnfs, hm]

theorem verdict_ne_empty (s v : String)
    (h : List.lookup s HOMEWORK_VERDICTS = some v) : (v == "") = false := by
  simp only [HOMEWORK_VERDICTS, List.lookup] at h
  repeat' split at h
  all_goals simp_all
  all_goals (subst h; decide)

/-- Claim C8: for every message and notifier whose send operation raises a
notifier-level (Telegram) error, `send_message` catches the error, logs it,
and returns normally (result is `Except.ok`, so the failure never crosses
the dispatch boundary to the caller). The chat identifier is part of the
modelled notifier behaviour `sendRaise`. -/
theorem claim_c8_notifier_failure_swallowed (t message : String) :
    send_message (some (PyExc.telegramError t)) message =
      Except.ok [(LogLevel.error, "Сообщение в Telegram не отправлено: " ++ t)] :=
  rfl

/-- Claim C9, counterexample: a configuration in which all three values are
present (set in the environment) but the first is the empty string makes the
process log critically and exit before the loop, contradicting the claim
that presence of all three implies the loop is entered. -/
theorem claim_c9_counterexample :
    (Config.practicum_token cfgEmptyTok).isSome = true
    ∧ (Config.telegram_token cfgEmptyTok).isSome = true
    ∧ (Config.telegram_chat_id cfgEmptyTok).isSome = true
    ∧ mainStartup cfgEmptyTok =
        StartupOutcome.exitFailure "Отсутствует токен. Бот остановлен!"
          "Отсутствует токен. Бот остановлен!" :=
  ⟨rfl, rfl, rfl, rfl⟩

/-- Claim C9 as amended: the loop is entered iff all three configuration
values are present and non-empty (truthy); if any is missing or empty the
process logs the critical message and exits with failure before the loop. -/
theorem claim_c9_amended_startup_guard (cfg : Config) :
    (mainStartup cfg = StartupOutcome.enterLoop ↔
      (optTruthy cfg.practicum_token = true ∧ optTruthy cfg.telegram_token = true ∧
        optTruthy cfg.telegram_chat_id = true))
    ∧ ((optTruthy cfg.practicum_token = false ∨ optTruthy cfg.telegram_token = false ∨
        optTruthy cfg.telegram_chat_id = false) →
      mainStartup cfg =
        StartupOutcome.exitFailure "Отсутствует токен. Бот остановлен!"
          "Отсутствует токен. Бот остановлен!") := by
  have hiff : mainStartup cfg = StartupOutcome.enterLoop ↔ check_tokens cfg = true := by
    unfold mainStartup
    split
    · rename_i hc
      simp [hc]
    · rename_i hc
      simp [hc]
  constructor
  · rw [hiff]
    unfold check_tokens
    simp [Bool.and_eq_true, and_assoc]
  · intro h
    have hc : check_tokens cfg = false := by
      unfold check_tokens
      rcases h with h | h | h <;> simp [h]
    unfold mainStartup
    simp [hc]

/-- Witness for the amended claim C9 at a concrete configuration with an
unset first token. -/
theorem claim_c9_amended_witness :
    (optTruthy (Config.practicum_token cfgNoTok) = false ∨
      optTruthy (Config.telegram_token cfgNoTok) = false ∨
      optTruthy (Config.telegram_chat_id cfgNoTok) = false)
    ∧ mainStartup cfgNoTok =
        StartupOutcome.exitFailure "Отсутствует токен. Бот остановлен!"
          "Отсутствует токен. Бот остановлен!" :=
  ⟨Or.inl rfl, (claim_c9_amended_startup_guard cfgNoTok).2 (Or.inl rfl)⟩

/-- Claim C2: for every homework record (a mapping) carrying a name string
and a status string with a verdict in the fixed table, `parse_status`
returns (never raises) the formatted message, which contains the homework
name and the exact verdict text. -/
theorem claim_c2_parse_status_recognized (fs : List (String × JVal))
    (name s v : String)
    (hname : List.lookup "homework_name" fs = some (JVal.str name))
    (hstat : List.lookup "status" fs = some (JVal.str s))
    (hv : List.lookup s HOMEWORK_VERDICTS = some v) :
    parse_status (JVal.dict fs) =
      Except.ok ("Изменился статус проверки работы \"" ++ name ++ "\". " ++ v)
    ∧ strIncludes ("Изменился статус проверки работы \"" ++ name ++ "\". " ++ v) name
    ∧ strIncludes ("Изменился статус проверки работы \"" ++ name ++ "\". " ++ v) v := by
  refine ⟨?_, ?_, ?_⟩
  · simp [parse_status, hname, hstat, verdictsGet, statusInVerdicts, hv,
      optStrFalsy, optJStr, jStr, verdict_ne_empty s v hv]
  · exact strIncludes_mono_left _ _ _ (strIncludes_mono_left _ _ _
      (strIncludes_mono_right _ _ _ (strIncludes_self name)))
  · exact strIncludes_mono_right _ _ _ (strIncludes_self v)

/-- Witness for claim C2 at a concrete reviewing record. -/
theorem claim_c2_witness :
    parse_status (JVal.dict
        [("homework_name", JVal.str "hw1"), ("status", JVal.str "reviewing")]) =
      Except.ok ("Изменился статус проверки работы \"" ++ "hw1" ++ "\". " ++
        "Работа взята на проверку ревьюером.")
    ∧ strIncludes ("Изменился статус проверки работы \"" ++ "hw1" ++ "\". " ++
        "Работа взята на проверку ревьюером.") "hw1"
    ∧ strIncludes ("Изменился статус проверки работы \"" ++ "hw1" ++ "\". " ++
        "Работа взята на проверку ревьюером.") "Работа взята на проверку ревьюером." :=
  claim_c2_parse_status_recognized
    [("homework_name", JVal.str "hw1"), ("status", JVal.str "reviewing")]
    "hw1" "reviewing" "Работа взята на проверку ревьюером." rfl rfl rfl

/-- Claim C3: for every homework record (a mapping) whose status string is
outside the recognized verdict set, or that lacks a name field,
`parse_status` raises -- the exception the specification's taxonomy names
`UnknownStatusKind` (the source raises `KeyError` here). -/
theorem claim_c3_parse_status_unrecognized (fs : List (String × JVal))
    (h : (∃ s, List.lookup "status" fs = some (JVal.str s) ∧
            List.lookup s HOMEWORK_VERDICTS = none)
      ∨ List.lookup "homework_name" fs = none) :
    ∃ e, parse_status (JVal.dict fs) = Except.error e := by
  rcases h with ⟨s, hs, hn⟩ | hname
  · exact ⟨PyExc.keyError "Такого статуса не существует", by
      simp [parse_status, hs, verdictsGet, hn, statusInVerdicts]⟩
  · cases hstat : List.lookup "status" fs with
    | none =>
      exact ⟨PyExc.keyError "Такого статуса не существует", by
        simp [parse_status, hstat, verdictsGet, statusInVerdicts]⟩
    | some jv =>
      cases jv with
      | str s =>
        cases hvv : List.lookup s HOMEWORK_VERDICTS with
        | none =>
          exact ⟨PyExc.keyError "Такого статуса не существует", by
            simp [parse_status, hstat, verdictsGet, statusInVerdicts, hvv]⟩
        | some v =>
          exact ⟨PyExc.keyError "Такого имени не существует", by
            simp [parse_status, hstat, verdictsGet, statusInVerdicts, hvv, hname]⟩
      | list xs =>
        exact ⟨PyExc.typeError "unhashable type: \x27list\x27", by
          simp [parse_status, hstat, verdictsGet]⟩
      | dict dfs =>
        exact ⟨PyExc.typeError "unhashable type: \x27dict\x27", by
          simp [parse_status, hstat, verdictsGet]⟩
      | null =>
        exact ⟨PyExc.keyError "Такого статуса не существует", by
          simp [parse_status, hstat, verdictsGet, statusInVerdicts]⟩
      | bool b =>
        exact ⟨PyExc.keyError "Такого статуса не существует", by
          simp [parse_status, hstat, verdictsGet, statusInVerdicts]⟩
      | int n =>
        exact ⟨PyExc.keyError "Такого статуса не существует", by
          simp [parse_status, hstat, verdictsGet, statusInVerdicts]⟩

/-- Witness for claim C3 at a concrete record with an unrecognized status
string. -/
theorem claim_c3_witness :
    (∃ s, List.lookup "status"
        [("homework_name", JVal.str "hw1"), ("status", JVal.str "weird")] =
          some (JVal.str s)
      ∧ List.lookup s HOMEWORK_VERDICTS = none)
    ∧ ∃ e, parse_status (JVal.dict
        [("homework_name", JVal.str "hw1"), ("status", JVal.str "weird")]) =
          Except.error e :=
  ⟨⟨"weird", rfl, rfl⟩,
   claim_c3_parse_status_unrecognized
     [("homework_name", JVal.str "hw1"), ("status", JVal.str "weird")]
     (Or.inl ⟨"weird", rfl, rfl⟩)⟩

/-- Claim C4: `check_response` raises exactly when the response is not a
mapping, or lacks the `homeworks` key, or lacks the `current_date` key, or
its `homeworks` value is not a sequence (the condition `specShapeBad`,
written from the spec; the raised exceptions are what the spec's taxonomy
names `ShapeError`); otherwise it returns the homeworks sequence, possibly
empty. -/
theorem claim_c4_check_response_shape (response : JVal) :
    ((∃ e, check_response response = Except.error e) ↔ specShapeBad response = true)
    ∧ (specShapeBad response = false →
        ∃ fs hws, response = JVal.dict fs
          ∧ List.lookup "homeworks" fs = some (JVal.list hws)
          ∧ check_response response = Except.ok hws) := by
  cases response
  case dict fs =>
    cases hhw : List.lookup "homeworks" fs with
    | none => simp [check_response, specShapeBad, hhw]
    | some hwv =>
      cases hcd : List.lookup "current_date" fs with
      | none => simp [check_response, specShapeBad, hhw, hcd]
      | some cdv =>
        cases hwv
        case list hws =>
          constructor
          · simp [check_response, specShapeBad, hhw, hcd]
          · intro _
            exact ⟨fs, hws, rfl, hhw, by simp [check_response, hhw, hcd]⟩
        all_goals simp [check_response, specShapeBad, hhw, hcd]
  all_goals simp [check_response, specShapeBad]

/-- Witness for claim C4 at a well-shaped response carrying an empty
homeworks list. -/
theorem claim_c4_witness :
    specShapeBad (JVal.dict
        [("homeworks", JVal.list []), ("current_date", JVal.int 5)]) = false
    ∧ ∃ fs hws,
        JVal.dict [("homeworks", JVal.list []), ("current_date", JVal.int 5)] =
          JVal.dict fs
        ∧ List.lookup "homeworks" fs = some (JVal.list hws)
        ∧ check_response (JVal.dict
            [("homeworks", JVal.list []), ("current_date", JVal.int 5)]) =
            Except.ok hws :=
  ⟨rfl, (claim_c4_check_response_shape _).2 rfl⟩

theorem strIncludes_excText_wrc2_outer (mo : String) (i : PyExc) (n : String)
    (h : strIncludes mo n) :
    strIncludes (excText (PyExc.wrongResponseCode2 mo i)) n := by
  simp only [excText]
  exact strIncludes_mono_left _ _ _ (strIncludes_mono_left _ _ _
    (strIncludes_mono_left _ _ _ (strIncludes_mono_right _ _ _
      (strIncludes_strRepr _ _ h))))

theorem strIncludes_excText_wrc2_inner (mo mi : String) (n : String)
    (h : strIncludes mi n) :
    strIncludes
      (excText (PyExc.wrongResponseCode2 mo (PyExc.wrongResponseCode1 mi))) n := by
  simp only [excText, pyRepr]
  apply strIncludes_mono_left
  apply strIncludes_mono_right
  apply strIncludes_mono_left
  apply strIncludes_mono_right
  exact strIncludes_strRepr _ _ h

/-- Claim C5: for every completed API call whose HTTP status is not 200,
`get_api_answer` raises `WrongResponseCode` (the spec's `TransportError`),
and the Python text of the raised exception -- the repr of its two-argument
tuple, whose second component is the originally raised error -- contains the
request target, the status code, the reason phrase, and the body text. -/
theorem claim_c5_transport_error (cfg : Config) (ts : JVal) (now : Int)
    (resp : HttpResponse) (h : resp.status_code ≠ httpStatusOK) :
    ∃ e, get_api_answer cfg (Except.ok resp) ts now = Except.error e
      ∧ strIncludes (excText e) ENDPOINT
      ∧ strIncludes (excText e) (toString resp.status_code)
      ∧ strIncludes (excText e) resp.reason
      ∧ strIncludes (excText e) resp.text := by
  have hfail :
      strIncludes (apiFailText cfg (if jTruthy ts then ts else JVal.int now))
        ENDPOINT := by
    unfold apiFailText
    apply strIncludes_mono_left
    apply strIncludes_mono_left
    apply strIncludes_mono_left
    apply strIncludes_mono_left
    apply strIncludes_mono_left
    apply strIncludes_mono_right
    exact strIncludes_self _
  have hstatus : strIncludes (badStatusText resp) (toString resp.status_code) := by
    unfold badStatusText
    apply strIncludes_mono_left
    apply strIncludes_mono_left
    apply strIncludes_mono_left
    apply strIncludes_mono_left
    apply strIncludes_mono_left
    apply strIncludes_mono_right
    exact strIncludes_self _
  have hreason : strIncludes (badStatusText resp) resp.reason := by
    unfold badStatusText
    apply strIncludes_mono_left
    apply strIncludes_mono_left
    apply strIncludes_mono_left
    apply strIncludes_mono_right
    exact strIncludes_self _
  have htext : strIncludes (badStatusText resp) resp.text := by
    unfold badStatusText
    apply strIncludes_mono_left
    apply strIncludes_mono_right
    exact strIncludes_self _
  refine ⟨PyExc.wrongResponseCode2
      (apiFailText cfg (if jTruthy ts then ts else JVal.int now))
      (PyExc.wrongResponseCode1 (badStatusText resp)), ?_,
    strIncludes_excText_wrc2_outer _ _ _ hfail,
    strIncludes_excText_wrc2_inner _ _ _ hstatus,
    strIncludes_excText_wrc2_inner _ _ _ hreason,
    strIncludes_excText_wrc2_inner _ _ _ htext⟩
  simp [get_api_answer, bne_iff_ne, h]

/-- Witness for claim C5 at a concrete 503 response: the raised transport
error exists and its text contains the string rendering of 503. -/
theorem claim_c5_witness :
    (503 : Nat) ≠ httpStatusOK
    ∧ ∃ e, get_api_answer cfgSample (Except.ok resp503) (JVal.int 1) 0 =
        Except.error e
      ∧ strIncludes (excText e) ENDPOINT
      ∧ strIncludes (excText e) (toString (503 : Nat))
      ∧ strIncludes (excText e) "Service Unavailable"
      ∧ strIncludes (excText e) "busy" :=
  ⟨by decide,
   claim_c5_transport_error cfgSample (JVal.int 1) 0 resp503 (by decide)⟩

/-- Claim C1: if two consecutive iterations derive the identical message
string (status message, sentinel, or failure text), the notifier is invoked
for it at most once, only on the first occurrence: the second iteration
invokes no send at all and logs the message instead. -/
theorem claim_c1_consecutive_dedup (cfg : Config) (env1 env2 : Env)
    (st : BotState)
    (h2 : derivedMessage cfg env2 (runIteration cfg env1 st).state =
      derivedMessage cfg env1 st) :
    (runIteration cfg env2 (runIteration cfg env1 st).state).sent = []
    ∧ (runIteration cfg env1 st).sent.length ≤ 1
    ∧ ∃ lvl, (lvl, derivedMessage cfg env1 st) ∈
        (runIteration cfg env2 (runIteration cfg env1 st).state).logs := by
  have hprev := runIteration_prev cfg env1 st
  have hdup : derivedMessage cfg env2 (runIteration cfg env1 st).state =
      (runIteration cfg env1 st).state.prev_msg := by rw [h2, hprev]
  refine ⟨?_, ?_, ?_⟩
  · rw [runIteration_sent cfg env2 (runIteration cfg env1 st).state, if_pos hdup]
  · rw [runIteration_sent cfg env1 st]
    split <;> simp
  · have hlog :=
      runIteration_logged_dup cfg env2 (runIteration cfg env1 st).state hdup
    rw [h2] at hlog
    exact hlog

/-- Witness for claim C1: two consecutive iterations both deriving the
sentinel message send nothing on the second and log it. -/
theorem claim_c1_witness :
    derivedMessage cfgSample envOK (runIteration cfgSample envOK stSample).state =
      derivedMessage cfgSample envOK stSample
    ∧ ((runIteration cfgSample envOK
        (runIteration cfgSample envOK stSample).state).sent = []
      ∧ (runIteration cfgSample envOK stSample).sent.length ≤ 1
      ∧ ∃ lvl, (lvl, derivedMessage cfgSample envOK stSample) ∈
          (runIteration cfgSample envOK
            (runIteration cfgSample envOK stSample).state).logs) :=
  ⟨rfl, claim_c1_consecutive_dedup cfgSample envOK envOK stSample rfl⟩

/-- Claim C10: the dedup cache `prev_msg` is overwritten with the derived
message whenever it differs from the previous one even when Telegram
delivery fails (the `TelegramError` is swallowed inside `send_message`
before line 193 runs), so a message whose delivery failed is recorded as
sent and a following iteration deriving the same message attempts no
resend. -/
theorem claim_c10_prev_overwritten_on_failed_delivery (cfg : Config)
    (env1 env2 : Env) (st : BotState) (terr : String)
    (hfail : env1.sendOutcome = some terr)
    (hne : derivedMessage cfg env1 st ≠ st.prev_msg)
    (h2 : derivedMessage cfg env2 (runIteration cfg env1 st).state =
      derivedMessage cfg env1 st) :
    (runIteration cfg env1 st).state.prev_msg = derivedMessage cfg env1 st
    ∧ (runIteration cfg env1 st).sent = [derivedMessage cfg env1 st]
    ∧ (runIteration cfg env2 (runIteration cfg env1 st).state).sent = [] := by
  have hprev := runIteration_prev cfg env1 st
  refine ⟨hprev, ?_, ?_⟩
  · rw [runIteration_sent cfg env1 st, if_neg hne]
  · rw [runIteration_sent cfg env2 (runIteration cfg env1 st).state,
      if_pos (by rw [h2, hprev])]

/-- Witness for claim C10: a failed delivery of the sentinel message still
records it, and the next iteration deriving it sends nothing. -/
theorem claim_c10_witness :
    Env.sendOutcome envSendFail = some "boom"
    ∧ derivedMessage cfgSample envSendFail stSample ≠ BotState.prev_msg stSample
    ∧ ((runIteration cfgSample envSendFail stSample).state.prev_msg =
        derivedMessage cfgSample envSendFail stSample
      ∧ (runIteration cfgSample envSendFail stSample).sent =
          [derivedMessage cfgSample envSendFail stSample]
      ∧ (runIteration cfgSample envSendFail
          (runIteration cfgSample envSendFail stSample).state).sent = []) :=
  ⟨rfl, by decide,
   claim_c10_prev_overwritten_on_failed_delivery cfgSample envSendFail
     envSendFail stSample "boom" rfl (by decide) (by decide)⟩

/-- Claim C7: every exception the API call, the cursor assignment, the
validation, or the message derivation raises within one iteration is caught
inside that iteration: the iteration completes with the failure text logged
at error level, the operator is notified with the failure text exactly when
it differs from the last-sent message, and the loop proceeds to the
remaining iterations. -/
theorem claim_c7_exception_caught (cfg : Config) (env : Env) (st : BotState)
    (e : PyExc) (h : (pipeline cfg env st).2 = Except.error e) :
    (runIteration cfg env st).sent =
      (if ("Сбой в работе программы: " ++ excText e) = st.prev_msg then []
       else ["Сбой в работе программы: " ++ excText e])
    ∧ (LogLevel.error, "Сбой в работе программы: " ++ excText e) ∈
        (runIteration cfg env st).logs
    ∧ ∀ rest, runLoop cfg (env :: rest) st =
        ((runLoop cfg rest (runIteration cfg env st).state).1,
          (runIteration cfg env st).sent ++
            (runLoop cfg rest (runIteration cfg env st).state).2) := by
  have hd : derivedMessage cfg env st =
      "Сбой в работе программы: " ++ excText e := by
    unfold derivedMessage
    rw [h]
  refine ⟨?_, ?_, ?_⟩
  · rw [runIteration_sent cfg env st, hd]
  · exact runIteration_error_logged cfg env st e h
  · intro rest
    rfl

/-- Witness for claim C7 at a concrete iteration whose decoded JSON is a
list, so the cursor assignment raises `AttributeError`. -/
theorem claim_c7_witness :
    (pipeline cfgSample envBadJson stSample).2 =
      Except.error (PyExc.attributeError
        "\x27list\x27 object has no attribute \x27get\x27")
    ∧ ((runIteration cfgSample envBadJson stSample).sent =
        (if ("Сбой в работе программы: " ++ excText (PyExc.attributeError
              "\x27list\x27 object has no attribute \x27get\x27")) =
            BotState.prev_msg stSample then []
         else ["Сбой в работе программы: " ++ excText (PyExc.attributeError
              "\x27list\x27 object has no attribute \x27get\x27")])
      ∧ (LogLevel.error, "Сбой в работе программы: " ++
          excText (PyExc.attributeError
            "\x27list\x27 object has no attribute \x27get\x27")) ∈
          (runIteration cfgSample envBadJson stSample).logs) :=
  ⟨rfl,
   (claim_c7_exception_caught cfgSample envBadJson stSample
      (PyExc.attributeError "\x27list\x27 object has no attribute \x27get\x27")
      rfl).1,
   (claim_c7_exception_caught cfgSample envBadJson stSample
      (PyExc.attributeError "\x27list\x27 object has no attribute \x27get\x27")
      rfl).2.1⟩

/-- Claim C6, counterexample: an iteration whose response is a mapping with
`current_date` equal to the falsy value 0 and no `homeworks` key. Validation
fails, yet the cursor is advanced (from 1 to 0); and although the value is
falsy and the wall clock reads 50, the cursor becomes 0, not the wall clock.
Both halves of the claim as stated are false at this input. -/
theorem claim_c6_counterexample :
    (∃ e, (pipeline cfgSample envC6 stSample).2 = Except.error e)
    ∧ (runIteration cfgSample envC6 stSample).state.timestamp = JVal.int 0
    ∧ stSample.timestamp = JVal.int 1
    ∧ Env.now envC6 = 50 :=
  ⟨⟨_, rfl⟩, rfl, rfl, rfl⟩

/-- Claim C6 as amended: the cursor is rewritten right after a successful
API call, before validation, so it changes even when validation then fails.
It becomes the response mapping's `current_date` value whenever the key is
present -- falsy values included -- and the wall clock only when the key is
absent; it is unchanged when the call failed, the status was not 200, or the
JSON was undecodable or not a mapping. -/
theorem claim_c6_amended_cursor (cfg : Config) (env : Env) (st : BotState) :
    (runIteration cfg env st).state.timestamp = nextCursorSpec env st := by
  rw [runIteration_timestamp, pipeline_timestamp]
